import Mathlib

/-!
Shallow embedding of the normalization + aggregation pipeline of
`src/dashboard_claude.py` (class `GenialDashboard`).

A pandas DataFrame row is modelled as a record of cells.  A cell is either
null (pandas `NaN`), a number, or a string: `fillna("Others")` writes the
string `"Others"` into *every* null cell, including the numeric amount
columns, so cells must be able to hold both numbers and strings.  The trade
date `DT_NEGOCIO` is moved to the index by `_clean_data` and is modelled as
a `Nat` field that the cell operations never touch (pandas `fillna` does not
touch the index).  Column renaming (`rename(columns=column_mapping)`) is
pure relabelling and is absorbed by the fixed Lean field names.
-/

/-- A pandas cell: missing (`NaN`), numeric, or string. -/
inductive Cell where
  | null : Cell
  | num : Rat → Cell
  | str : String → Cell
deriving DecidableEq

/-- One row of the trade table, after the fixed renaming
`CD_SETOR → SECTOR`, `CD_SUBSETOR → SUB-SECTOR`, `CD_SEGMENTO → SEGMENT`,
`CONTA → INV TYPE`, `VL_COMPRA → BUY R$`, `VL_VENDA → SELL R$`,
`VL_NET → NET R$`, `VL_TOTAL → TOTAL`.  `dt` is the `DT_NEGOCIO` index. -/
structure Row where
  dt : Nat
  sector : Cell
  subsector : Cell
  segment : Cell
  invType : Cell
  buy : Cell
  sell : Cell
  net : Cell
  total : Cell
deriving DecidableEq

/-- `fillna("Others")` on one cell. -/
def fillnaCell : Cell → Cell
  | .null => .str "Others"
  | c => c

/-- `self.data.fillna("Others", inplace=True)` applied to one row: every
column is filled, the numeric amount columns included. -/
def fillna_row (r : Row) : Row :=
  { r with
    sector := fillnaCell r.sector
    subsector := fillnaCell r.subsector
    segment := fillnaCell r.segment
    invType := fillnaCell r.invType
    buy := fillnaCell r.buy
    sell := fillnaCell r.sell
    net := fillnaCell r.net
    total := fillnaCell r.total }

/-- `self.data['SECTOR'].replace({'FII': 'Others', 'IBOV': 'Others'})`. -/
def replace_sector (r : Row) : Row :=
  { r with
    sector :=
      if r.sector = .str "FII" ∨ r.sector = .str "IBOV" then .str "Others"
      else r.sector }

/-- `self.data['INV TYPE'].replace(investor_mapping)`. -/
def replace_investor (r : Row) : Row :=
  { r with
    invType :=
      if r.invType = .str "ESTRANGEIRO" then .str "FOREIGNERS"
      else if r.invType = .str "LOCAL INSTITUCIONAL" then .str "LOCALS"
      else if r.invType = .str "GENIAL" then .str "RETAIL"
      else r.invType }

/-- `valid_investors = ['LOCALS', 'FOREIGNERS', 'RETAIL']`. -/
def valid_investors : List Cell :=
  [.str "LOCALS", .str "FOREIGNERS", .str "RETAIL"]

/-- The per-row effect of `_clean_data` (fill, then sector remap, then
investor remap). -/
def cleanRow (r : Row) : Row :=
  replace_investor (replace_sector (fillna_row r))

/-- `GenialDashboard._clean_data`: fill nulls, remap sectors, remap
investor categories, then keep only the valid investor categories. -/
def clean_data (rows : List Row) : List Row :=
  let filled := rows.map fillna_row
  let sectors := filled.map replace_sector
  let investors := sectors.map replace_investor
  investors.filter fun r => decide (r.invType ∈ valid_investors)

theorem clean_data_eq (rows : List Row) :
    clean_data rows
      = (rows.map cleanRow).filter fun r => decide (r.invType ∈ valid_investors) := by
  simp only [clean_data, List.map_map, Function.comp_def]
  rfl

theorem fillnaCell_ne_null (c : Cell) : fillnaCell c ≠ Cell.null := by
  cases c <;> simp [fillnaCell]

theorem cleanRow_sector_ne_null (r : Row) : (cleanRow r).sector ≠ Cell.null := by
  simp only [cleanRow, replace_investor, replace_sector, fillna_row]
  split
  · simp
  · exact fillnaCell_ne_null r.sector

theorem cleanRow_subsector_ne_null (r : Row) : (cleanRow r).subsector ≠ Cell.null := by
  simp only [cleanRow, replace_investor, replace_sector, fillna_row]
  exact fillnaCell_ne_null r.subsector

theorem cleanRow_segment_ne_null (r : Row) : (cleanRow r).segment ≠ Cell.null := by
  simp only [cleanRow, replace_investor, replace_sector, fillna_row]
  exact fillnaCell_ne_null r.segment

theorem mem_clean_data {rows : List Row} {r : Row} (h : r ∈ clean_data rows) :
    r.invType ∈ valid_investors ∧ ∃ r0 ∈ rows, r = cleanRow r0 := by
  rw [clean_data_eq] at h
  have h1 := List.of_mem_filter h
  have h2 := List.mem_of_mem_filter h
  simp only [decide_eq_true_eq] at h1
  rcases List.mem_map.mp h2 with ⟨r0, hr0, hE⟩
  exact ⟨h1, r0, hr0, hE.symm⟩

/-!
Aggregation (`GenialDashboard._process_data`).

pandas `groupby(sort=True)` (the default) iterates groups in ascending
lexicographic order of the group keys, and `pivot_table` sorts its index
and columns the same way.  The ascending order on cells is modelled by an
order-embedding `cellKey` into a lexicographic product.
-/

/-- Sort key of a cell: rank (null < number < string), then the value. -/
def cellKey : Cell → Lex (Nat × Lex (Rat × String))
  | .null => toLex (0, toLex (0, ""))
  | .num q => toLex (1, toLex (q, ""))
  | .str s => toLex (2, toLex (0, s))

/-- Ascending cell order as a Boolean relation, for `mergeSort`. -/
def cellLe (a b : Cell) : Bool := decide (cellKey a ≤ cellKey b)

/-- Ascending lexicographic order on (INV TYPE, SECTOR) key pairs. -/
def pairCellLe (a b : Cell × Cell) : Bool :=
  decide ((toLex (cellKey a.1, cellKey a.2) : Lex (_ × _))
    ≤ toLex (cellKey b.1, cellKey b.2))

/-- The distinct trade dates, ascending (pivot index). -/
def dateKeys (rows : List Row) : List Nat :=
  ((rows.map Row.dt).dedup).mergeSort fun a b => decide (a ≤ b)

/-- The distinct observed investor categories, ascending (groupby keys). -/
def catKeys (rows : List Row) : List Cell :=
  ((rows.map Row.invType).dedup).mergeSort cellLe

/-- The distinct observed (INV TYPE, SECTOR) pairs, ascending. -/
def pairKeys (rows : List Row) : List (Cell × Cell) :=
  ((rows.map fun r => (r.invType, r.sector)).dedup).mergeSort pairCellLe

/-- Numeric value of a cell.  The aggregations only ever reach a
non-numeric amount cell on the failure path (pandas raises `TypeError`),
which `process_data` models by its `netsNumeric` / `totalsNumeric` guards. -/
def cellNum : Cell → Rat
  | .num q => q
  | _ => 0

def netOf (r : Row) : Rat := cellNum r.net

def totalOf (r : Row) : Rat := cellNum r.total

/-- The rows of one (INV TYPE, SECTOR) group. -/
def groupRows (rows : List Row) (k : Cell × Cell) : List Row :=
  rows.filter fun r => decide ((r.invType, r.sector) = k)

/-- `self.data.groupby(['INV TYPE', 'SECTOR'])['NET R$'].sum().reset_index()`. -/
def net_sector_summary_raw (rows : List Row) : List ((Cell × Cell) × Rat) :=
  (pairKeys rows).map fun k => (k, ((groupRows rows k).map netOf).sum)

/-- ... followed by `self.net_sector_summary['NET R$'] /= 1_000_000`. -/
def net_sector_summary (rows : List Row) : List ((Cell × Cell) × Rat) :=
  (net_sector_summary_raw rows).map fun e => (e.1, e.2 / 1000000)

/-- `self.data.groupby('INV TYPE')['NET R$'].sum() / 1_000_000`. -/
def total_net_by_type (rows : List Row) : List (Cell × Rat) :=
  (catKeys rows).map fun t =>
    (t, ((rows.filter fun r => decide (r.invType = t)).map netOf).sum / 1000000)

/-- `self.data.groupby('INV TYPE')['TOTAL'].sum() / 1_000_000`. -/
def volume_total_by_type (rows : List Row) : List (Cell × Rat) :=
  (catKeys rows).map fun t =>
    (t, ((rows.filter fun r => decide (r.invType = t)).map totalOf).sum / 1000000)

/-- One cell of a `pivot_table(values='NET R$', aggfunc='sum')`: `NaN`
(`none`) when the (index, column) combination has no rows, else the sum. -/
def pivot_cell (rows : List Row) (q : Row → Bool) : Option Rat :=
  if rows.filter q = [] then none else some (((rows.filter q).map netOf).sum)

/-- `fillna(0)` on one pivot cell. -/
def fillZero : Option Rat → Rat
  | none => 0
  | some v => v

/-- One cell of `daily_evolution` after `fillna(0)` and `/= 1_000_000`. -/
def daily_cell (rows : List Row) (d : Nat) (c : Cell) : Rat :=
  fillZero (pivot_cell rows fun r => decide (r.dt = d ∧ r.invType = c)) / 1000000

/-- `pivot_table(values='NET R$', index=dates, columns='INV TYPE',
aggfunc='sum')`, then `fillna(0)`, then `/= 1_000_000`, flattened to
(date, category, value) cells over dates × observed categories. -/
def daily_evolution (rows : List Row) : List (Nat × Cell × Rat) :=
  (dateKeys rows).flatMap fun d =>
    (catKeys rows).map fun c => (d, c, daily_cell rows d c)

/-- One cell of `evol_sector` after `fillna(0)` and `/= 1_000_000`. -/
def sector_cell (rows : List Row) (d : Nat) (k : Cell × Cell) : Rat :=
  fillZero (pivot_cell rows fun r => decide (r.dt = d ∧ (r.invType, r.sector) = k))
    / 1000000

/-- `pivot_table(values='NET R$', index=dates, columns=['INV TYPE','SECTOR'],
aggfunc='sum')`, then `fillna(0)`, then `/= 1_000_000`; columns are the
observed (INV TYPE, SECTOR) pairs (all-NaN columns are dropped by
`pivot_table`'s default `dropna=True`). -/
def evol_sector (rows : List Row) : List (Nat × (Cell × Cell) × Rat) :=
  (dateKeys rows).flatMap fun d =>
    (pairKeys rows).map fun k => (d, k, sector_cell rows d k)

/-- Descending order on net amount, for `sort_values(by='NET R$',
ascending=False)`. -/
def netDescLe (a b : ((Cell × Cell) × Rat)) : Bool := decide (b.2 ≤ a.2)

/-- `GenialDashboard.get_top_bottom_sectors`: filter the summary to one
investor category, sort descending by net amount, return `head(n)` and
`tail(n)`. -/
def get_top_bottom_sectors (summary : List ((Cell × Cell) × Rat)) (inv_type : Cell)
    (n : Nat) : List ((Cell × Cell) × Rat) × List ((Cell × Cell) × Rat) :=
  let filtered := (summary.filter fun e => decide (e.1.1 = inv_type)).mergeSort netDescLe
  (filtered.take n, filtered.drop (filtered.length - n))

/-- Whether a cell is numeric. -/
def Cell.isNum : Cell → Bool
  | num _ => true
  | _ => false

/-- The string held by a string cell. -/
def Cell.strVal : Cell → String
  | str s => s
  | _ => ""

/-- The non-null cells of column `f` over a group of rows (pandas
aggregation skips `NaN`). -/
def groupCells (f : Row → Cell) (g : List Row) : List Cell :=
  (g.map f).filter fun c => decide (c ≠ Cell.null)

/-- A group whose (non-null) cells mix numbers and strings: object-dtype
`sum()` raises `TypeError` on it. -/
def mixedCells (cs : List Cell) : Bool :=
  !(cs.all Cell.isNum) && !(cs.all fun c => !(c.isNum))

/-- Object-dtype `Series.sum()` on a non-mixed group: numeric cells add
(an empty group sums to 0), string cells concatenate in group order. -/
def objSumD (cs : List Cell) : Cell :=
  if cs.all Cell.isNum then .num ((cs.map cellNum).sum)
  else .str (String.join (cs.map Cell.strVal))

/-- Line 87's `groupby(['INV TYPE','SECTOR'])['NET R$'].sum()` completes
iff no group mixes numeric and string NET cells. -/
def netGroupsOk (rows : List Row) : Bool :=
  (pairKeys rows).all fun k => !(mixedCells (groupCells Row.net (groupRows rows k)))

/-- Line 87's right-hand side: the per-group object-dtype NET sums, still
unscaled, string-valued on all-string groups. -/
def net_sector_summary_obj (rows : List Row) : List ((Cell × Cell) × Cell) :=
  (pairKeys rows).map fun k => (k, objSumD (groupCells Row.net (groupRows rows k)))

/-- Division by 1,000,000 of one (numeric) summary value. -/
def scaleCell : Cell → Cell
  | .num q => .num (q / 1000000)
  | c => c

/-- Line 88's `self.net_sector_summary['NET R$'] /= 1_000_000` applied to
the already-assigned frame (it only completes when every value is
numeric; see `process_data`). -/
def scale_net_values (v : List ((Cell × Cell) × Cell)) :
    List ((Cell × Cell) × Cell) :=
  v.map fun e => (e.1, scaleCell e.2)

/-- Every non-null cell of column `f` is numeric: a `groupby(...).sum() /
1_000_000` over that column completes iff this holds (a mixed group makes
the sum raise; an all-string group makes the division raise). -/
def colNumeric (f : Row → Cell) (rows : List Row) : Bool :=
  rows.all fun r => (f r).isNum || decide (f r = Cell.null)

/-- The mutable attributes of a `GenialDashboard` object (`__init__` sets
the five view attributes to `None`).  `net_sector_summary` holds
cell-valued entries because a load that fails at line 88 leaves it holding
the unscaled, possibly string-valued groupby result of line 87. -/
structure DashState where
  data : List Row
  net_sector_summary : Option (List ((Cell × Cell) × Cell))
  total_net_by_type : Option (List (Cell × Rat))
  volume_total_by_type : Option (List (Cell × Rat))
  daily_evolution : Option (List (Nat × Cell × Rat))
  evol_sector : Option (List (Nat × (Cell × Cell) × Rat))
deriving DecidableEq

/-- `GenialDashboard._process_data` as a state transformer.  The `self.*`
view attributes are assigned one statement at a time, in source order; an
exception aborts the remaining statements but keeps the assignments
already made; the Boolean result is `False` exactly when an exception
propagated (caught by `load_data`'s `except`).  Statement granularity:

* line 87 (`self.net_sector_summary = ...groupby(...)['NET R$'].sum()...`)
  raises iff some (INV TYPE, SECTOR) group mixes numeric and string NET
  cells (`netGroupsOk`); on an all-string group the object-dtype sum
  *succeeds* by concatenating, so the assignment completes;
* line 88 (`... /= 1_000_000`) raises iff some assigned summary value is
  a string; the failed division leaves the column as assigned by line 87;
* line 91 (`total_net_by_type`) cannot raise once line 88 completed:
  every group sum being numeric forces every non-null NET cell numeric
  (`net_sums_numeric_nets_numeric`), so the category sums divide cleanly;
* line 94 (`volume_total_by_type`) computes its whole right-hand side
  before assigning, and raises iff some non-null TOTAL cell is a string
  (`colNumeric`): a mixed category group raises at `sum()`, an all-string
  one at the division — either way nothing is assigned;
* lines 97-104 and 107-114 (the two pivots) are reached only with all
  non-null NET cells numeric, and then cannot raise. -/
def process_data (s : DashState) : DashState × Bool :=
  if netGroupsOk s.data then
    let s1 := { s with net_sector_summary := some (net_sector_summary_obj s.data) }
    if (net_sector_summary_obj s.data).all (fun e => e.2.isNum) then
      let v2 := scale_net_values (net_sector_summary_obj s.data)
      let s2 := { s1 with net_sector_summary := some v2 }
      let s3 := { s2 with total_net_by_type := some (total_net_by_type s2.data) }
      if colNumeric Row.total s3.data then
        let s4 := { s3 with volume_total_by_type := some (volume_total_by_type s3.data) }
        let s5 := { s4 with daily_evolution := some (daily_evolution s4.data) }
        let s6 := { s5 with evol_sector := some (evol_sector s5.data) }
        (s6, true)
      else (s3, false)
    else (s1, false)
  else (s, false)

/-- `GenialDashboard.load_data`, from the point where the external loader
has produced the raw table: `self.data = <raw>; self._clean_data();
self._process_data()`, returning `True` on success and `False` when an
exception was caught. -/
def load_data (s : DashState) (raw : List Row) : DashState × Bool :=
  process_data { s with data := clean_data raw }

/-! Key-list lemmas. -/

theorem pairKeys_nodup (rows : List Row) : (pairKeys rows).Nodup :=
  (List.mergeSort_perm _ _).nodup_iff.mpr (List.nodup_dedup _)

theorem mem_pairKeys {rows : List Row} {r : Row} (h : r ∈ rows) :
    (r.invType, r.sector) ∈ pairKeys rows :=
  List.mem_mergeSort.mpr (List.mem_dedup.mpr (List.mem_map_of_mem _ h))

theorem catKeys_nodup (rows : List Row) : (catKeys rows).Nodup :=
  (List.mergeSort_perm _ _).nodup_iff.mpr (List.nodup_dedup _)

theorem mem_catKeys {rows : List Row} {r : Row} (h : r ∈ rows) :
    r.invType ∈ catKeys rows :=
  List.mem_mergeSort.mpr (List.mem_dedup.mpr (List.mem_map_of_mem _ h))

theorem mem_dateKeys {rows : List Row} {r : Row} (h : r ∈ rows) :
    r.dt ∈ dateKeys rows :=
  List.mem_mergeSort.mpr (List.mem_dedup.mpr (List.mem_map_of_mem _ h))

/-! Failure atomicity of a load. -/

theorem groupCells_cellNum_sum (g : List Row) :
    ((groupCells Row.net g).map cellNum).sum = (g.map netOf).sum := by
  unfold groupCells
  induction g with
  | nil => rfl
  | cons r g ih =>
    simp only [List.map_cons, List.filter_cons]
    by_cases hr : r.net = Cell.null
    · rw [hr]
      simpa [netOf, hr, cellNum] using ih
    · simpa [hr, netOf] using ih

/-- Once line 88 completed (every group NET sum numeric), every non-null
NET cell is numeric — which is why lines 91-114 cannot raise. -/
theorem net_sums_numeric_nets_numeric (rows : List Row)
    (h : (net_sector_summary_obj rows).all (fun e => e.2.isNum) = true) :
    colNumeric Row.net rows = true := by
  rw [colNumeric, List.all_eq_true]
  intro r hr
  by_cases hnull : r.net = Cell.null
  · simp [hnull]
  · have hrg : r ∈ groupRows rows (r.invType, r.sector) :=
      List.mem_filter.mpr ⟨hr, by simp [groupRows]⟩
    have hcell : r.net ∈ groupCells Row.net (groupRows rows (r.invType, r.sector)) :=
      List.mem_filter.mpr ⟨List.mem_map_of_mem Row.net hrg, decide_eq_true hnull⟩
    have hmem : ((r.invType, r.sector),
        objSumD (groupCells Row.net (groupRows rows (r.invType, r.sector))))
          ∈ net_sector_summary_obj rows :=
      List.mem_map_of_mem _ (mem_pairKeys hr)
    have hnum := List.all_eq_true.mp h _ hmem
    by_cases hisnum : r.net.isNum
    · simp [hisnum]
    · exfalso
      have hnotall : ¬ ((groupCells Row.net
          (groupRows rows (r.invType, r.sector))).all Cell.isNum = true) := by
        intro hall
        exact hisnum (List.all_eq_true.mp hall _ hcell)
      rw [objSumD, if_neg hnotall] at hnum
      simp [Cell.isNum] at hnum

/-- When line 88 succeeds, the stored summary is the numeric image of the
rational summary view. -/
theorem scale_net_values_eq (rows : List Row)
    (h : (net_sector_summary_obj rows).all (fun e => e.2.isNum) = true) :
    scale_net_values (net_sector_summary_obj rows)
      = (net_sector_summary rows).map fun e => (e.1, Cell.num e.2) := by
  unfold scale_net_values net_sector_summary_obj net_sector_summary
    net_sector_summary_raw
  rw [List.map_map, List.map_map, List.map_map]
  apply List.map_congr_left
  intro k hk
  have hmem : (k, objSumD (groupCells Row.net (groupRows rows k)))
      ∈ net_sector_summary_obj rows :=
    List.mem_map_of_mem _ hk
  have hnum := List.all_eq_true.mp h _ hmem
  by_cases hall : (groupCells Row.net (groupRows rows k)).all Cell.isNum = true
  · have hval : objSumD (groupCells Row.net (groupRows rows k))
        = Cell.num (((groupCells Row.net (groupRows rows k)).map cellNum).sum) := by
      rw [objSumD, if_pos hall]
    simp only [Function.comp_def, hval, scaleCell, groupCells_cellNum_sum]
  · exfalso
    rw [objSumD, if_neg hall] at hnum
    simp [Cell.isNum] at hnum

theorem pairKeys_singleton (r : Row) :
    pairKeys [r] = [(r.invType, r.sector)] := by
  simp [pairKeys]

/-- C6 counterexample: a load that fails partway through `_process_data`
(here: the `TOTAL` column holds a filled-null string "Others", so the
volume view's `sum() / 1_000_000` raises after the net views were already
assigned) returns `False` yet leaves the object with a partial view
update: `net_sector_summary` was installed while `volume_total_by_type`
still holds its previous (absent) value — refuting the all-or-nothing
claim. -/
theorem claim_C6_counterexample :
    (load_data ⟨[], none, none, none, none, none⟩
        [⟨1, Cell.str "BANK", Cell.str "x", Cell.str "y", Cell.str "GENIAL",
          Cell.num 1, Cell.num 1, Cell.num 5000000, Cell.null⟩]).2 = false ∧
    (load_data ⟨[], none, none, none, none, none⟩
        [⟨1, Cell.str "BANK", Cell.str "x", Cell.str "y", Cell.str "GENIAL",
          Cell.num 1, Cell.num 1, Cell.num 5000000, Cell.null⟩]).1.net_sector_summary
      ≠ (⟨[], none, none, none, none, none⟩ : DashState).net_sector_summary ∧
    (load_data ⟨[], none, none, none, none, none⟩
        [⟨1, Cell.str "BANK", Cell.str "x", Cell.str "y", Cell.str "GENIAL",
          Cell.num 1, Cell.num 1, Cell.num 5000000, Cell.null⟩]).1.volume_total_by_type
      = (⟨[], none, none, none, none, none⟩ : DashState).volume_total_by_type := by
  have hclean : clean_data
      [⟨1, Cell.str "BANK", Cell.str "x", Cell.str "y", Cell.str "GENIAL",
        Cell.num 1, Cell.num 1, Cell.num 5000000, Cell.null⟩]
      = [⟨1, Cell.str "BANK", Cell.str "x", Cell.str "y", Cell.str "RETAIL",
          Cell.num 1, Cell.num 1, Cell.num 5000000, Cell.str "Others"⟩] := by decide
  have h87 : netGroupsOk (clean_data
      [⟨1, Cell.str "BANK", Cell.str "x", Cell.str "y", Cell.str "GENIAL",
        Cell.num 1, Cell.num 1, Cell.num 5000000, Cell.null⟩]) = true := by
    rw [hclean, netGroupsOk, pairKeys_singleton]
    decide
  have h88 : (net_sector_summary_obj (clean_data
      [⟨1, Cell.str "BANK", Cell.str "x", Cell.str "y", Cell.str "GENIAL",
        Cell.num 1, Cell.num 1, Cell.num 5000000, Cell.null⟩])).all
      (fun e => e.2.isNum) = true := by
    rw [hclean, net_sector_summary_obj, pairKeys_singleton]
    decide
  have h94 : colNumeric Row.total (clean_data
      [⟨1, Cell.str "BANK", Cell.str "x", Cell.str "y", Cell.str "GENIAL",
        Cell.num 1, Cell.num 1, Cell.num 5000000, Cell.null⟩]) = false := by
    rw [hclean]
    decide
  refine ⟨?_, ?_, ?_⟩ <;> simp [load_data, process_data, h87, h88, h94]

/-- C6 amended: a successful load installs all five views consistently
from the same canonical table.  A failed load leaves the volume, daily
and sector-evolution views unchanged, and leaves the net summary and
total-net views in one of three states: both unchanged (line 87 raised on
a mixed-type NET group); the summary replaced by the unscaled, possibly
string-valued groupby result while total-net is unchanged (line 88's
division raised after line 87's assignment completed); or both replaced
by values from the new canonical table (line 94's volume step raised) —
so a failed load can leave a partial, mixed set of views. -/
theorem claim_C6_amended (s : DashState) (raw : List Row) :
    ((load_data s raw).2 = true →
      (load_data s raw).1.net_sector_summary
          = some ((net_sector_summary (clean_data raw)).map
              fun e => (e.1, Cell.num e.2)) ∧
      (load_data s raw).1.total_net_by_type
          = some (total_net_by_type (clean_data raw)) ∧
      (load_data s raw).1.volume_total_by_type
          = some (volume_total_by_type (clean_data raw)) ∧
      (load_data s raw).1.daily_evolution
          = some (daily_evolution (clean_data raw)) ∧
      (load_data s raw).1.evol_sector = some (evol_sector (clean_data raw))) ∧
    ((load_data s raw).2 = false →
      (load_data s raw).1.volume_total_by_type = s.volume_total_by_type ∧
      (load_data s raw).1.daily_evolution = s.daily_evolution ∧
      (load_data s raw).1.evol_sector = s.evol_sector ∧
      (((load_data s raw).1.net_sector_summary = s.net_sector_summary ∧
        (load_data s raw).1.total_net_by_type = s.total_net_by_type) ∨
       ((load_data s raw).1.net_sector_summary
            = some (net_sector_summary_obj (clean_data raw)) ∧
        (load_data s raw).1.total_net_by_type = s.total_net_by_type) ∨
       ((load_data s raw).1.net_sector_summary
            = some ((net_sector_summary (clean_data raw)).map
                fun e => (e.1, Cell.num e.2)) ∧
        (load_data s raw).1.total_net_by_type
            = some (total_net_by_type (clean_data raw))))) := by
  unfold load_data process_data
  by_cases h87 : netGroupsOk (clean_data raw)
  · by_cases h88 : (net_sector_summary_obj (clean_data raw)).all
        fun e => e.2.isNum
    · have hscale := scale_net_values_eq (clean_data raw) h88
      by_cases h94 : colNumeric Row.total (clean_data raw) <;>
        simp [h87, h88, h94, hscale]
    · simp [h87, h88]
  · simp [h87]

theorem claim_C6_amended_witness :
    (load_data ⟨[], none, none, none, none, none⟩
        [⟨2, Cell.str "AUTO", Cell.str "x", Cell.str "y", Cell.str "GENIAL",
          Cell.num 1, Cell.num 1, Cell.null, Cell.num 3000000⟩]).2 = false ∧
    ((load_data ⟨[], none, none, none, none, none⟩
        [⟨2, Cell.str "AUTO", Cell.str "x", Cell.str "y", Cell.str "GENIAL",
          Cell.num 1, Cell.num 1, Cell.null, Cell.num 3000000⟩]).1.volume_total_by_type
        = (⟨[], none, none, none, none, none⟩ : DashState).volume_total_by_type ∧
      (load_data ⟨[], none, none, none, none, none⟩
        [⟨2, Cell.str "AUTO", Cell.str "x", Cell.str "y", Cell.str "GENIAL",
          Cell.num 1, Cell.num 1, Cell.null, Cell.num 3000000⟩]).1.daily_evolution
        = (⟨[], none, none, none, none, none⟩ : DashState).daily_evolution ∧
      (load_data ⟨[], none, none, none, none, none⟩
        [⟨2, Cell.str "AUTO", Cell.str "x", Cell.str "y", Cell.str "GENIAL",
          Cell.num 1, Cell.num 1, Cell.null, Cell.num 3000000⟩]).1.evol_sector
        = (⟨[], none, none, none, none, none⟩ : DashState).evol_sector ∧
      (((load_data ⟨[], none, none, none, none, none⟩
          [⟨2, Cell.str "AUTO", Cell.str "x", Cell.str "y", Cell.str "GENIAL",
            Cell.num 1, Cell.num 1, Cell.null, Cell.num 3000000⟩]).1.net_sector_summary
          = (⟨[], none, none, none, none, none⟩ : DashState).net_sector_summary ∧
        (load_data ⟨[], none, none, none, none, none⟩
          [⟨2, Cell.str "AUTO", Cell.str "x", Cell.str "y", Cell.str "GENIAL",
            Cell.num 1, Cell.num 1, Cell.null, Cell.num 3000000⟩]).1.total_net_by_type
          = (⟨[], none, none, none, none, none⟩ : DashState).total_net_by_type) ∨
       ((load_data ⟨[], none, none, none, none, none⟩
          [⟨2, Cell.str "AUTO", Cell.str "x", Cell.str "y", Cell.str "GENIAL",
            Cell.num 1, Cell.num 1, Cell.null, Cell.num 3000000⟩]).1.net_sector_summary
          = some (net_sector_summary_obj (clean_data
            [⟨2, Cell.str "AUTO", Cell.str "x", Cell.str "y", Cell.str "GENIAL",
              Cell.num 1, Cell.num 1, Cell.null, Cell.num 3000000⟩])) ∧
        (load_data ⟨[], none, none, none, none, none⟩
          [⟨2, Cell.str "AUTO", Cell.str "x", Cell.str "y", Cell.str "GENIAL",
            Cell.num 1, Cell.num 1, Cell.null, Cell.num 3000000⟩]).1.total_net_by_type
          = (⟨[], none, none, none, none, none⟩ : DashState).total_net_by_type) ∨
       ((load_data ⟨[], none, none, none, none, none⟩
          [⟨2, Cell.str "AUTO", Cell.str "x", Cell.str "y", Cell.str "GENIAL",
            Cell.num 1, Cell.num 1, Cell.null, Cell.num 3000000⟩]).1.net_sector_summary
          = some ((net_sector_summary (clean_data
              [⟨2, Cell.str "AUTO", Cell.str "x", Cell.str "y", Cell.str "GENIAL",
                Cell.num 1, Cell.num 1, Cell.null, Cell.num 3000000⟩])).map
              fun e => (e.1, Cell.num e.2)) ∧
        (load_data ⟨[], none, none, none, none, none⟩
          [⟨2, Cell.str "AUTO", Cell.str "x", Cell.str "y", Cell.str "GENIAL",
            Cell.num 1, Cell.num 1, Cell.null, Cell.num 3000000⟩]).1.total_net_by_type
          = some (total_net_by_type (clean_data
            [⟨2, Cell.str "AUTO", Cell.str "x", Cell.str "y", Cell.str "GENIAL",
              Cell.num 1, Cell.num 1, Cell.null, Cell.num 3000000⟩]))))) := by
  have hclean : clean_data
      [⟨2, Cell.str "AUTO", Cell.str "x", Cell.str "y", Cell.str "GENIAL",
        Cell.num 1, Cell.num 1, Cell.null, Cell.num 3000000⟩]
      = [⟨2, Cell.str "AUTO", Cell.str "x", Cell.str "y", Cell.str "RETAIL",
          Cell.num 1, Cell.num 1, Cell.str "Others", Cell.num 3000000⟩] := by decide
  have h87 : netGroupsOk (clean_data
      [⟨2, Cell.str "AUTO", Cell.str "x", Cell.str "y", Cell.str "GENIAL",
        Cell.num 1, Cell.num 1, Cell.null, Cell.num 3000000⟩]) = true := by
    rw [hclean, netGroupsOk, pairKeys_singleton]
    decide
  have h88 : (net_sector_summary_obj (clean_data
      [⟨2, Cell.str "AUTO", Cell.str "x", Cell.str "y", Cell.str "GENIAL",
        Cell.num 1, Cell.num 1, Cell.null, Cell.num 3000000⟩])).all
      (fun e => e.2.isNum) = false := by
    rw [hclean, net_sector_summary_obj, pairKeys_singleton]
    decide
  have hfail : (load_data ⟨[], none, none, none, none, none⟩
      [⟨2, Cell.str "AUTO", Cell.str "x", Cell.str "y", Cell.str "GENIAL",
        Cell.num 1, Cell.num 1, Cell.null, Cell.num 3000000⟩]).2 = false := by
    simp [load_data, process_data, h87, h88]
  exact ⟨hfail,
    (claim_C6_amended ⟨[], none, none, none, none, none⟩
      [⟨2, Cell.str "AUTO", Cell.str "x", Cell.str "y", Cell.str "GENIAL",
        Cell.num 1, Cell.num 1, Cell.null, Cell.num 3000000⟩]).2 hfail⟩

/-! Fixed-point lemmas for the Normalizer. -/

theorem fillnaCell_of_ne_null {c : Cell} (h : c ≠ Cell.null) : fillnaCell c = c := by
  cases c with
  | null => exact absurd rfl h
  | num q => rfl
  | str s => rfl

theorem cleanRow_invType_ne_null (r : Row) : (cleanRow r).invType ≠ Cell.null := by
  simp only [cleanRow, replace_investor, replace_sector, fillna_row]
  split
  · simp
  · split
    · simp
    · split
      · simp
      · exact fillnaCell_ne_null r.invType

theorem cleanRow_amounts_ne_null (r : Row) :
    (cleanRow r).buy ≠ Cell.null ∧ (cleanRow r).sell ≠ Cell.null ∧
      (cleanRow r).net ≠ Cell.null ∧ (cleanRow r).total ≠ Cell.null := by
  refine ⟨?_, ?_, ?_, ?_⟩ <;>
    simp only [cleanRow, replace_investor, replace_sector, fillna_row] <;>
    exact fillnaCell_ne_null _

theorem cleanRow_sector_not_remappable (r : Row) :
    (cleanRow r).sector ≠ Cell.str "FII" ∧ (cleanRow r).sector ≠ Cell.str "IBOV" := by
  simp only [cleanRow, replace_investor, replace_sector, fillna_row]
  split
  · simp
  · rename_i h
    push_neg at h
    exact h

theorem cleanRow_invType_not_remappable (r : Row) :
    (cleanRow r).invType ≠ Cell.str "ESTRANGEIRO" ∧
      (cleanRow r).invType ≠ Cell.str "LOCAL INSTITUCIONAL" ∧
      (cleanRow r).invType ≠ Cell.str "GENIAL" := by
  simp only [cleanRow, replace_investor, replace_sector, fillna_row]
  split
  · simp
  · split
    · simp
    · split
      · simp
      · rename_i h1 h2 h3
        exact ⟨h1, h2, h3⟩

theorem fillna_row_cleanRow (r : Row) : fillna_row (cleanRow r) = cleanRow r := by
  have hb := cleanRow_amounts_ne_null r
  show ({ cleanRow r with
      sector := fillnaCell (cleanRow r).sector
      subsector := fillnaCell (cleanRow r).subsector
      segment := fillnaCell (cleanRow r).segment
      invType := fillnaCell (cleanRow r).invType
      buy := fillnaCell (cleanRow r).buy
      sell := fillnaCell (cleanRow r).sell
      net := fillnaCell (cleanRow r).net
      total := fillnaCell (cleanRow r).total } : Row) = cleanRow r
  rw [fillnaCell_of_ne_null (cleanRow_sector_ne_null r),
    fillnaCell_of_ne_null (cleanRow_subsector_ne_null r),
    fillnaCell_of_ne_null (cleanRow_segment_ne_null r),
    fillnaCell_of_ne_null (cleanRow_invType_ne_null r),
    fillnaCell_of_ne_null hb.1, fillnaCell_of_ne_null hb.2.1,
    fillnaCell_of_ne_null hb.2.2.1, fillnaCell_of_ne_null hb.2.2.2]

theorem replace_sector_cleanRow (r : Row) :
    replace_sector (cleanRow r) = cleanRow r := by
  have h := cleanRow_sector_not_remappable r
  show ({ cleanRow r with
      sector := if (cleanRow r).sector = .str "FII" ∨ (cleanRow r).sector = .str "IBOV"
        then .str "Others" else (cleanRow r).sector } : Row) = cleanRow r
  rw [if_neg]
  rintro (h1 | h2)
  · exact h.1 h1
  · exact h.2 h2

theorem replace_investor_cleanRow (r : Row) :
    replace_investor (cleanRow r) = cleanRow r := by
  have h := cleanRow_invType_not_remappable r
  show ({ cleanRow r with
      invType :=
        if (cleanRow r).invType = .str "ESTRANGEIRO" then .str "FOREIGNERS"
        else if (cleanRow r).invType = .str "LOCAL INSTITUCIONAL" then .str "LOCALS"
        else if (cleanRow r).invType = .str "GENIAL" then .str "RETAIL"
        else (cleanRow r).invType } : Row) = cleanRow r
  rw [if_neg h.1, if_neg h.2.1, if_neg h.2.2]

theorem cleanRow_idem (r : Row) : cleanRow (cleanRow r) = cleanRow r := by
  show replace_investor (replace_sector (fillna_row (cleanRow r))) = cleanRow r
  rw [fillna_row_cleanRow, replace_sector_cleanRow, replace_investor_cleanRow]

/-! Generic lemmas about grouped sums and sorted keys. -/

theorem mergeSort_pair {α : Type} (le : α → α → Bool) (a b : α) :
    List.mergeSort [a, b] le = if le a b then [a, b] else [b, a] := by
  rw [List.mergeSort]
  simp [List.splitInTwo, List.merge]

theorem sum_map_ite_eq {κ : Type} [DecidableEq κ] (c : κ) (v : Rat) (l : List κ)
    (h : l.Nodup) :
    (l.map fun x => if c = x then v else 0).sum = if c ∈ l then v else 0 := by
  induction l with
  | nil => simp
  | cons x l ih =>
    rcases List.nodup_cons.mp h with ⟨hx, hl⟩
    by_cases hc : c = x
    · subst hc
      simp [ih hl, hx]
    · simp [hc, ih hl, Ne.symm hc]

/-- Summing group sums over the (nodup) group keys selected by `p` equals
summing directly over the rows whose key satisfies `p`. -/
theorem sum_filter_key {α κ : Type} [DecidableEq κ] (f : α → Rat) (k : α → κ)
    (p : κ → Bool) (keys : List κ) (hk : keys.Nodup) :
    ∀ rows : List α, (∀ r ∈ rows, k r ∈ keys) →
      ((keys.filter p).map
          (fun x => ((rows.filter fun r => decide (k r = x)).map f).sum)).sum
        = ((rows.filter fun r => p (k r)).map f).sum := by
  intro rows
  induction rows with
  | nil => simp
  | cons r rows ih =>
    intro hmem
    have hrk : k r ∈ keys := hmem r (List.mem_cons_self _ _)
    have hmem' : ∀ a ∈ rows, k a ∈ keys := fun a ha =>
      hmem a (List.mem_cons_of_mem _ ha)
    have hpt : ∀ x ∈ keys.filter p,
        (((r :: rows).filter fun a => decide (k a = x)).map f).sum
          = (if k r = x then f r else 0)
            + ((rows.filter fun a => decide (k a = x)).map f).sum := by
      intro x _
      by_cases hx : k r = x
      · simp [List.filter_cons, hx]
      · simp [List.filter_cons, hx]
    rw [List.map_congr_left hpt, List.sum_map_add, ih hmem',
      sum_map_ite_eq _ _ _ (hk.filter p)]
    by_cases hp : p (k r)
    · rw [if_pos (List.mem_filter.mpr ⟨hrk, hp⟩)]
      simp [List.filter_cons, hp]
    · rw [if_neg fun hin => hp (List.mem_filter.mp hin).2]
      simp [List.filter_cons, hp]

/-- C2: for every investor category present in the canonical table, the sum
over all sectors of `net_sector_summary[(c, s)]` equals
`total_net_by_type[c]` — exactly, in rational arithmetic — both being
derived from the same rows. -/
theorem claim_C2 (rows : List Row) (e : Cell × Rat)
    (he : e ∈ total_net_by_type rows) :
    (((net_sector_summary rows).filter fun x => decide (x.1.1 = e.1)).map
        (fun x => x.2)).sum = e.2 := by
  rcases List.mem_map.mp he with ⟨t, _, hE⟩
  subst hE
  simp only [net_sector_summary, net_sector_summary_raw, List.filter_map,
    List.map_map, Function.comp_def]
  have hsum := sum_filter_key netOf (fun r => (r.invType, r.sector))
    (fun kk => decide (kk.1 = t)) (pairKeys rows) (pairKeys_nodup rows) rows
    (fun r hr => mem_pairKeys hr)
  simp only [groupRows, div_eq_mul_inv]
  rw [List.sum_map_mul_right, hsum]

theorem claim_C2_witness :
    ((Cell.str "RETAIL", (2 : Rat)) ∈ total_net_by_type
      [⟨1, Cell.str "BANK", Cell.str "x", Cell.str "y", Cell.str "RETAIL",
        Cell.num 1, Cell.num 1, Cell.num 2000000, Cell.num 5000000⟩]) ∧
    (((net_sector_summary
        [⟨1, Cell.str "BANK", Cell.str "x", Cell.str "y", Cell.str "RETAIL",
          Cell.num 1, Cell.num 1, Cell.num 2000000, Cell.num 5000000⟩]).filter
        fun x => decide (x.1.1 = (Cell.str "RETAIL", (2 : Rat)).1)).map
        (fun x => x.2)).sum = (Cell.str "RETAIL", (2 : Rat)).2 := by
  have hmem : (Cell.str "RETAIL", (2 : Rat)) ∈ total_net_by_type
      [⟨1, Cell.str "BANK", Cell.str "x", Cell.str "y", Cell.str "RETAIL",
        Cell.num 1, Cell.num 1, Cell.num 2000000, Cell.num 5000000⟩] := by
    simp only [total_net_by_type, catKeys, List.map_cons, List.map_nil,
      List.dedup_cons_of_not_mem, List.not_mem_nil, not_false_iff,
      List.dedup_nil, List.mergeSort_singleton]
    norm_num [netOf, cellNum]
  exact ⟨hmem, claim_C2 _ _ hmem⟩

theorem fillZero_pivot_cell (rows : List Row) (q : Row → Bool) :
    fillZero (pivot_cell rows q) = ((rows.filter q).map netOf).sum := by
  unfold pivot_cell
  split
  · rename_i h
    rw [h]
    rfl
  · rfl

/-- C8: every derived monetary value in the five views equals the raw-unit
sum of net (resp. total) amounts over the matching canonical rows divided
by exactly 1,000,000 (dense-filled cells included: their matching row set
is empty and their value is 0 = 0 / 1,000,000). -/
theorem claim_C8 (rows : List Row) :
    (∀ e ∈ net_sector_summary rows,
      e.2 = ((groupRows rows e.1).map netOf).sum / 1000000) ∧
    (∀ e ∈ total_net_by_type rows,
      e.2 = ((rows.filter fun r => decide (r.invType = e.1)).map netOf).sum
        / 1000000) ∧
    (∀ e ∈ volume_total_by_type rows,
      e.2 = ((rows.filter fun r => decide (r.invType = e.1)).map totalOf).sum
        / 1000000) ∧
    (∀ c ∈ daily_evolution rows,
      c.2.2 = ((rows.filter fun r => decide (r.dt = c.1 ∧ r.invType = c.2.1)).map
        netOf).sum / 1000000) ∧
    (∀ c ∈ evol_sector rows,
      c.2.2 = ((rows.filter fun r =>
        decide (r.dt = c.1 ∧ (r.invType, r.sector) = c.2.1)).map netOf).sum
        / 1000000) := by
  refine ⟨?_, ?_, ?_, ?_, ?_⟩
  · intro e he
    rcases List.mem_map.mp he with ⟨x, hx, hE⟩
    rcases List.mem_map.mp hx with ⟨k, _, hK⟩
    subst hE
    subst hK
    rfl
  · intro e he
    rcases List.mem_map.mp he with ⟨t, _, hE⟩
    subst hE
    rfl
  · intro e he
    rcases List.mem_map.mp he with ⟨t, _, hE⟩
    subst hE
    rfl
  · intro c hc
    rcases List.mem_flatMap.mp hc with ⟨d, _, hin⟩
    rcases List.mem_map.mp hin with ⟨cc, _, hE⟩
    subst hE
    show daily_cell rows d cc = _
    rw [daily_cell, fillZero_pivot_cell]
  · intro c hc
    rcases List.mem_flatMap.mp hc with ⟨d, _, hin⟩
    rcases List.mem_map.mp hin with ⟨k, _, hE⟩
    subst hE
    show sector_cell rows d k = _
    rw [sector_cell, fillZero_pivot_cell]

theorem claim_C8_witness :
    (((Cell.str "RETAIL", Cell.str "BANK"), (2 : Rat)).2 : Rat)
      = ((groupRows
          [⟨1, Cell.str "BANK", Cell.str "x", Cell.str "y", Cell.str "RETAIL",
            Cell.num 1, Cell.num 1, Cell.num 2000000, Cell.num 5000000⟩]
          ((Cell.str "RETAIL", Cell.str "BANK"), (2 : Rat)).1).map netOf).sum
        / 1000000 :=
  (claim_C8
    [⟨1, Cell.str "BANK", Cell.str "x", Cell.str "y", Cell.str "RETAIL",
      Cell.num 1, Cell.num 1, Cell.num 2000000, Cell.num 5000000⟩]).1
    ((Cell.str "RETAIL", Cell.str "BANK"), (2 : Rat))
    (by
      simp only [net_sector_summary, net_sector_summary_raw, pairKeys,
        List.map_cons, List.map_nil, List.dedup_cons_of_not_mem,
        List.not_mem_nil, not_false_iff, List.dedup_nil,
        List.mergeSort_singleton]
      norm_num [groupRows, netOf, cellNum])

/-- C3: `daily_evolution` has a cell for every (observed date, observed
category) combination and `evol_sector` one for every (observed date,
observed (category, sector) pair) combination — the key lists collect
exactly the values observed in the canonical rows — and every cell whose
combination matches no row equals 0. -/
theorem claim_C3 (rows : List Row) :
    (∀ r ∈ rows, r.dt ∈ dateKeys rows ∧ r.invType ∈ catKeys rows ∧
      (r.invType, r.sector) ∈ pairKeys rows) ∧
    (∀ d ∈ dateKeys rows, ∀ c ∈ catKeys rows,
      (d, c, daily_cell rows d c) ∈ daily_evolution rows ∧
      ((rows.filter fun r => decide (r.dt = d ∧ r.invType = c)) = [] →
        daily_cell rows d c = 0)) ∧
    (∀ d ∈ dateKeys rows, ∀ k ∈ pairKeys rows,
      (d, k, sector_cell rows d k) ∈ evol_sector rows ∧
      ((rows.filter fun r => decide (r.dt = d ∧ (r.invType, r.sector) = k)) = [] →
        sector_cell rows d k = 0)) := by
  refine ⟨?_, ?_, ?_⟩
  · intro r hr
    exact ⟨mem_dateKeys hr, mem_catKeys hr, mem_pairKeys hr⟩
  · intro d hd c hc
    constructor
    · exact List.mem_flatMap.mpr ⟨d, hd, List.mem_map.mpr ⟨c, hc, rfl⟩⟩
    · intro hnone
      rw [daily_cell, fillZero_pivot_cell, hnone]
      simp
  · intro d hd k hk
    constructor
    · exact List.mem_flatMap.mpr ⟨d, hd, List.mem_map.mpr ⟨k, hk, rfl⟩⟩
    · intro hnone
      rw [sector_cell, fillZero_pivot_cell, hnone]
      simp

theorem claim_C3_witness :
    ((1, Cell.str "RETAIL",
        daily_cell
          [⟨1, Cell.str "BANK", Cell.str "x", Cell.str "y", Cell.str "RETAIL",
            Cell.num 1, Cell.num 1, Cell.num 2000000, Cell.num 5000000⟩]
          1 (Cell.str "RETAIL")) ∈ daily_evolution
        [⟨1, Cell.str "BANK", Cell.str "x", Cell.str "y", Cell.str "RETAIL",
          Cell.num 1, Cell.num 1, Cell.num 2000000, Cell.num 5000000⟩]) :=
  (((claim_C3 _).2.1 1
      (mem_dateKeys (List.mem_singleton_self _))
      (Cell.str "RETAIL")
      (mem_catKeys (List.mem_singleton_self _)))).1

/-- C1: every row of the canonical table produced by `_clean_data` has an
investor category in the fixed set {LOCALS, FOREIGNERS, RETAIL}; every raw
row whose remapped category is not in that set is absent from the canonical
table; and no nulls remain in the sector, sub-sector, segment, or category
fields of any canonical row. -/
theorem claim_C1 (rows : List Row) :
    (∀ r ∈ clean_data rows,
      r.invType ∈ valid_investors ∧ r.sector ≠ Cell.null ∧
        r.subsector ≠ Cell.null ∧ r.segment ≠ Cell.null ∧ r.invType ≠ Cell.null) ∧
    (∀ r0 ∈ rows,
      (cleanRow r0).invType ∉ valid_investors → cleanRow r0 ∉ clean_data rows) := by
  constructor
  · intro r hr
    rcases mem_clean_data hr with ⟨hvalid, r0, _, hE⟩
    subst hE
    exact ⟨hvalid, cleanRow_sector_ne_null r0, cleanRow_subsector_ne_null r0,
      cleanRow_segment_ne_null r0, cleanRow_invType_ne_null r0⟩
  · intro r0 _ hnot hmem
    exact hnot (mem_clean_data hmem).1

theorem claim_C1_witness :
    ((⟨1, Cell.str "BANK", Cell.str "Others", Cell.str "Others", Cell.str "RETAIL",
        Cell.num 1, Cell.num 1, Cell.num 2000000, Cell.num 5000000⟩ : Row).invType
        ∈ valid_investors ∧
      (⟨1, Cell.str "BANK", Cell.str "Others", Cell.str "Others", Cell.str "RETAIL",
        Cell.num 1, Cell.num 1, Cell.num 2000000, Cell.num 5000000⟩ : Row).sector
        ≠ Cell.null ∧
      (⟨1, Cell.str "BANK", Cell.str "Others", Cell.str "Others", Cell.str "RETAIL",
        Cell.num 1, Cell.num 1, Cell.num 2000000, Cell.num 5000000⟩ : Row).subsector
        ≠ Cell.null ∧
      (⟨1, Cell.str "BANK", Cell.str "Others", Cell.str "Others", Cell.str "RETAIL",
        Cell.num 1, Cell.num 1, Cell.num 2000000, Cell.num 5000000⟩ : Row).segment
        ≠ Cell.null ∧
      (⟨1, Cell.str "BANK", Cell.str "Others", Cell.str "Others", Cell.str "RETAIL",
        Cell.num 1, Cell.num 1, Cell.num 2000000, Cell.num 5000000⟩ : Row).invType
        ≠ Cell.null) ∧
    cleanRow ⟨1, Cell.str "FII", Cell.str "x", Cell.str "y", Cell.str "UNKNOWN_DESK",
        Cell.num 1, Cell.num 1, Cell.num 7, Cell.num 7⟩ ∉ clean_data
      [⟨1, Cell.str "BANK", Cell.null, Cell.null, Cell.str "GENIAL",
        Cell.num 1, Cell.num 1, Cell.num 2000000, Cell.num 5000000⟩,
       ⟨1, Cell.str "FII", Cell.str "x", Cell.str "y", Cell.str "UNKNOWN_DESK",
        Cell.num 1, Cell.num 1, Cell.num 7, Cell.num 7⟩] :=
  ⟨(claim_C1
      [⟨1, Cell.str "BANK", Cell.null, Cell.null, Cell.str "GENIAL",
        Cell.num 1, Cell.num 1, Cell.num 2000000, Cell.num 5000000⟩,
       ⟨1, Cell.str "FII", Cell.str "x", Cell.str "y", Cell.str "UNKNOWN_DESK",
        Cell.num 1, Cell.num 1, Cell.num 7, Cell.num 7⟩]).1 _ (by decide),
   (claim_C1
      [⟨1, Cell.str "BANK", Cell.null, Cell.null, Cell.str "GENIAL",
        Cell.num 1, Cell.num 1, Cell.num 2000000, Cell.num 5000000⟩,
       ⟨1, Cell.str "FII", Cell.str "x", Cell.str "y", Cell.str "UNKNOWN_DESK",
        Cell.num 1, Cell.num 1, Cell.num 7, Cell.num 7⟩]).2 _
      (by decide) (by decide)⟩

/-- C5: normalization is idempotent — applying `_clean_data` to a table
that is already canonical yields the same table: no further rows are
dropped and no value is changed. -/
theorem claim_C5 (raw : List Row) : clean_data (clean_data raw) = clean_data raw := by
  rw [clean_data_eq (clean_data raw)]
  have hmap : (clean_data raw).map cleanRow = (clean_data raw).map id := by
    apply List.map_congr_left
    intro r hr
    rcases mem_clean_data hr with ⟨_, r0, _, hE⟩
    subst hE
    exact cleanRow_idem r0
  rw [hmap, List.map_id]
  apply List.filter_eq_self.mpr
  intro r hr
  exact decide_eq_true (mem_clean_data hr).1

/-- C10 (implicit): the null-fill step writes the sentinel string "Others"
into every absent field, the numeric amount fields included; a row whose
net amount was absent keeps flowing through the pipeline with net amount
the string "Others" instead of being rejected, dropped, or reported. -/
theorem claim_C10 (rows : List Row) (r : Row) (h1 : r ∈ rows)
    (h2 : r.net = Cell.null) :
    (cleanRow r).net = Cell.str "Others" ∧
    ((cleanRow r).invType ∈ valid_investors → cleanRow r ∈ clean_data rows) := by
  constructor
  · show fillnaCell r.net = Cell.str "Others"
    rw [h2]
    rfl
  · intro hvalid
    rw [clean_data_eq]
    exact List.mem_filter.mpr ⟨List.mem_map_of_mem cleanRow h1, decide_eq_true hvalid⟩

theorem claim_C10_witness :
    (cleanRow ⟨1, Cell.str "BANK", Cell.str "x", Cell.str "y", Cell.str "GENIAL",
        Cell.num 1, Cell.num 1, Cell.null, Cell.num 5⟩).net = Cell.str "Others" ∧
    ((cleanRow ⟨1, Cell.str "BANK", Cell.str "x", Cell.str "y", Cell.str "GENIAL",
        Cell.num 1, Cell.num 1, Cell.null, Cell.num 5⟩).invType ∈ valid_investors →
      cleanRow ⟨1, Cell.str "BANK", Cell.str "x", Cell.str "y", Cell.str "GENIAL",
          Cell.num 1, Cell.num 1, Cell.null, Cell.num 5⟩ ∈ clean_data
        [⟨1, Cell.str "BANK", Cell.str "x", Cell.str "y", Cell.str "GENIAL",
          Cell.num 1, Cell.num 1, Cell.null, Cell.num 5⟩]) :=
  claim_C10 _ _ (List.mem_singleton_self _) rfl

/-! RankQuery (`get_top_bottom_sectors`). -/

/-- The summary rows of one investor category
(`net_sector_summary[net_sector_summary['INV TYPE'] == inv_type]`). -/
def category_rows (summary : List ((Cell × Cell) × Rat)) (inv_type : Cell) :
    List ((Cell × Cell) × Rat) :=
  summary.filter fun e => decide (e.1.1 = inv_type)

/-- ... sorted by `sort_values(by='NET R$', ascending=False)`. -/
def sorted_category (summary : List ((Cell × Cell) × Rat)) (inv_type : Cell) :
    List ((Cell × Cell) × Rat) :=
  (category_rows summary inv_type).mergeSort netDescLe

theorem get_top_bottom_sectors_eq (summary : List ((Cell × Cell) × Rat))
    (inv_type : Cell) (n : Nat) :
    get_top_bottom_sectors summary inv_type n
      = ((sorted_category summary inv_type).take n,
         (sorted_category summary inv_type).drop
           ((sorted_category summary inv_type).length - n)) := rfl

theorem netDescLe_trans (a b c : (Cell × Cell) × Rat) :
    netDescLe a b → netDescLe b c → netDescLe a c := by
  simp only [netDescLe, decide_eq_true_eq]
  exact fun hab hbc => le_trans hbc hab

theorem netDescLe_total (a b : (Cell × Cell) × Rat) :
    netDescLe a b || netDescLe b a := by
  simp only [netDescLe, Bool.or_eq_true, decide_eq_true_eq]
  exact le_total b.2 a.2

theorem sorted_category_pairwise (summary : List ((Cell × Cell) × Rat))
    (inv_type : Cell) :
    (sorted_category summary inv_type).Pairwise fun a b => b.2 ≤ a.2 :=
  (List.sorted_mergeSort netDescLe_trans netDescLe_total
      (category_rows summary inv_type)).imp fun h => of_decide_eq_true h

theorem sorted_category_perm (summary : List ((Cell × Cell) × Rat))
    (inv_type : Cell) :
    List.Perm (sorted_category summary inv_type) (category_rows summary inv_type) :=
  List.mergeSort_perm _ _

/-- C4: `get_top_bottom_sectors` returns as top list the first n entries
and as bottom list the last n entries of the descending-by-net-amount sort
of the category's summary entries (a permutation of those entries,
pairwise descending), preserving that sort's relative order;
`len(top) = min n (sectorCount c)`; a category with fewer than n sectors
yields all its sectors in both lists, and a category with zero sectors
yields two empty lists. -/
theorem claim_C4 (summary : List ((Cell × Cell) × Rat)) (inv_type : Cell)
    (n : Nat) (_hn : 0 < n) :
    List.Perm (sorted_category summary inv_type) (category_rows summary inv_type) ∧
    (sorted_category summary inv_type).Pairwise (fun a b => b.2 ≤ a.2) ∧
    (get_top_bottom_sectors summary inv_type n).1
        ++ (sorted_category summary inv_type).drop n
      = sorted_category summary inv_type ∧
    (sorted_category summary inv_type).take
        ((sorted_category summary inv_type).length - n)
        ++ (get_top_bottom_sectors summary inv_type n).2
      = sorted_category summary inv_type ∧
    (get_top_bottom_sectors summary inv_type n).1.length
      = min n (category_rows summary inv_type).length ∧
    ((category_rows summary inv_type).length < n →
      (get_top_bottom_sectors summary inv_type n).1 = sorted_category summary inv_type ∧
      (get_top_bottom_sectors summary inv_type n).2 = sorted_category summary inv_type) ∧
    ((category_rows summary inv_type).length = 0 →
      (get_top_bottom_sectors summary inv_type n).1 = [] ∧
      (get_top_bottom_sectors summary inv_type n).2 = []) := by
  rw [get_top_bottom_sectors_eq]
  have hlen : (sorted_category summary inv_type).length
      = (category_rows summary inv_type).length :=
    (sorted_category_perm summary inv_type).length_eq
  refine ⟨sorted_category_perm summary inv_type,
    sorted_category_pairwise summary inv_type,
    List.take_append_drop n _, List.take_append_drop _ _, ?_, ?_, ?_⟩
  · rw [List.length_take, hlen]
  · intro hlt
    constructor
    · exact List.take_of_length_le (by omega)
    · have : (sorted_category summary inv_type).length - n = 0 := by omega
      rw [this, List.drop_zero]
  · intro h0
    have hs : (sorted_category summary inv_type).length = 0 := by omega
    rcases List.length_eq_zero.mp hs with he
    rw [he]
    simp

theorem claim_C4_witness :
    List.Perm
        (sorted_category [((Cell.str "RETAIL", Cell.str "BANK"), (2 : Rat))]
          (Cell.str "RETAIL"))
        (category_rows [((Cell.str "RETAIL", Cell.str "BANK"), (2 : Rat))]
          (Cell.str "RETAIL")) ∧
    (sorted_category [((Cell.str "RETAIL", Cell.str "BANK"), (2 : Rat))]
        (Cell.str "RETAIL")).Pairwise (fun a b => b.2 ≤ a.2) ∧
    (get_top_bottom_sectors [((Cell.str "RETAIL", Cell.str "BANK"), (2 : Rat))]
          (Cell.str "RETAIL") 3).1
        ++ (sorted_category [((Cell.str "RETAIL", Cell.str "BANK"), (2 : Rat))]
          (Cell.str "RETAIL")).drop 3
      = sorted_category [((Cell.str "RETAIL", Cell.str "BANK"), (2 : Rat))]
          (Cell.str "RETAIL") ∧
    (sorted_category [((Cell.str "RETAIL", Cell.str "BANK"), (2 : Rat))]
          (Cell.str "RETAIL")).take
        ((sorted_category [((Cell.str "RETAIL", Cell.str "BANK"), (2 : Rat))]
          (Cell.str "RETAIL")).length - 3)
        ++ (get_top_bottom_sectors [((Cell.str "RETAIL", Cell.str "BANK"), (2 : Rat))]
          (Cell.str "RETAIL") 3).2
      = sorted_category [((Cell.str "RETAIL", Cell.str "BANK"), (2 : Rat))]
          (Cell.str "RETAIL") ∧
    (get_top_bottom_sectors [((Cell.str "RETAIL", Cell.str "BANK"), (2 : Rat))]
          (Cell.str "RETAIL") 3).1.length
      = min 3 (category_rows [((Cell.str "RETAIL", Cell.str "BANK"), (2 : Rat))]
          (Cell.str "RETAIL")).length ∧
    ((category_rows [((Cell.str "RETAIL", Cell.str "BANK"), (2 : Rat))]
          (Cell.str "RETAIL")).length < 3 →
      (get_top_bottom_sectors [((Cell.str "RETAIL", Cell.str "BANK"), (2 : Rat))]
            (Cell.str "RETAIL") 3).1
          = sorted_category [((Cell.str "RETAIL", Cell.str "BANK"), (2 : Rat))]
            (Cell.str "RETAIL") ∧
      (get_top_bottom_sectors [((Cell.str "RETAIL", Cell.str "BANK"), (2 : Rat))]
            (Cell.str "RETAIL") 3).2
          = sorted_category [((Cell.str "RETAIL", Cell.str "BANK"), (2 : Rat))]
            (Cell.str "RETAIL")) ∧
    ((category_rows [((Cell.str "RETAIL", Cell.str "BANK"), (2 : Rat))]
          (Cell.str "RETAIL")).length = 0 →
      (get_top_bottom_sectors [((Cell.str "RETAIL", Cell.str "BANK"), (2 : Rat))]
            (Cell.str "RETAIL") 3).1 = [] ∧
      (get_top_bottom_sectors [((Cell.str "RETAIL", Cell.str "BANK"), (2 : Rat))]
            (Cell.str "RETAIL") 3).2 = []) :=
  claim_C4 [((Cell.str "RETAIL", Cell.str "BANK"), (2 : Rat))] (Cell.str "RETAIL") 3
    (by decide)

/-! Deterministic key ordering (groupby sorts keys; mergeSort is stable). -/

theorem pairCellLe_trans (a b c : Cell × Cell) :
    pairCellLe a b → pairCellLe b c → pairCellLe a c := by
  simp only [pairCellLe, decide_eq_true_eq]
  exact le_trans

theorem pairCellLe_total (a b : Cell × Cell) : pairCellLe a b || pairCellLe b a := by
  simp only [pairCellLe, Bool.or_eq_true, decide_eq_true_eq]
  exact le_total _ _

theorem cellKey_injective : Function.Injective cellKey := by
  intro a b h
  cases a <;> cases b <;> simp_all [cellKey]

theorem cellKey_str_lt_iff {x y : String} :
    cellKey (Cell.str x) < cellKey (Cell.str y) ↔ x < y := by
  simp [cellKey, Prod.Lex.lt_iff]

/-- Within one investor category, the summary's entries are strictly
ascending in the sector key order (pandas sorts the groupby MultiIndex). -/
theorem summary_filter_sorted (rows : List Row) (t : Cell) :
    (category_rows (net_sector_summary rows) t).Pairwise fun a b =>
      cellKey a.1.2 < cellKey b.1.2 := by
  have hkeys : (pairKeys rows).Pairwise fun a b =>
      ((toLex (cellKey a.1, cellKey a.2) : Lex (_ × _))
          ≤ toLex (cellKey b.1, cellKey b.2)) ∧ a ≠ b :=
    ((List.sorted_mergeSort pairCellLe_trans pairCellLe_total _).imp
      fun h => of_decide_eq_true h).and (pairKeys_nodup rows)
  have hmap : (net_sector_summary rows).Pairwise fun e e' =>
      ((toLex (cellKey e.1.1, cellKey e.1.2) : Lex (_ × _))
          ≤ toLex (cellKey e'.1.1, cellKey e'.1.2)) ∧ e.1 ≠ e'.1 := by
    unfold net_sector_summary net_sector_summary_raw
    rw [List.map_map]
    exact List.pairwise_map.mpr hkeys
  have hfil := hmap.filter fun e => decide (e.1.1 = t)
  apply hfil.imp_of_mem
  intro a b ha hb hab
  have hat : a.1.1 = t := of_decide_eq_true (List.mem_filter.mp ha).2
  have hbt : b.1.1 = t := of_decide_eq_true (List.mem_filter.mp hb).2
  rcases (Prod.Lex.le_iff _ _).mp hab.1 with h1 | ⟨h1, h2⟩
  · rw [hat, hbt] at h1
    exact absurd h1 (lt_irrefl _)
  · refine lt_of_le_of_ne h2 fun he => hab.2 ?_
    have hsec : a.1.2 = b.1.2 := cellKey_injective he
    have hfst : a.1.1 = b.1.1 := hat.trans hbt.symm
    exact Prod.ext hfst hsec

/-- In a strictly `R`-ascending list, an `R`-related pair of members occurs
as a sublist in that order. -/
theorem pair_sublist_of_pairwise {α : Type} {R : α → α → Prop}
    (hasym : ∀ a b, R a b → R b a → False) :
    ∀ (l : List α), l.Pairwise R → ∀ x y, x ∈ l → y ∈ l → R x y →
      [x, y].Sublist l := by
  intro l
  induction l with
  | nil =>
    intro _ x y hx _ _
    exact absurd hx (List.not_mem_nil x)
  | cons c l ih =>
    intro hl x y hx hy hR
    rcases List.pairwise_cons.mp hl with ⟨hc, hl'⟩
    rcases List.mem_cons.mp hx with rfl | hx'
    · rcases List.mem_cons.mp hy with rfl | hy'
      · exact (hasym _ _ hR hR).elim
      · exact (List.singleton_sublist.mpr hy').cons₂ x
    · rcases List.mem_cons.mp hy with rfl | hy'
      · exact (hasym _ _ hR (hc x hx')).elim
      · exact (ih hl' x y hx' hy' hR).cons c

/-- A duplicate-free list cannot hold the same two distinct elements as
sublists in both orders. -/
theorem sublist_pair_antisymm {α : Type} :
    ∀ (l : List α), l.Nodup → ∀ x y : α,
      [x, y].Sublist l → [y, x].Sublist l → x = y := by
  intro l
  induction l with
  | nil =>
    intro _ x y h _
    simp at h
  | cons c l ih =>
    intro hnd x y h1 h2
    rcases List.nodup_cons.mp hnd with ⟨hcl, hl⟩
    cases h1 with
    | cons _ h1' =>
      cases h2 with
      | cons _ h2' => exact ih hl x y h1' h2'
      | cons₂ _ h2' => exact absurd (h1'.subset (by simp)) hcl
    | cons₂ _ h1' =>
      cases h2 with
      | cons _ h2' => exact absurd (h2'.subset (by simp)) hcl
      | cons₂ _ h2' => rfl

theorem net_sector_summary_nodup (rows : List Row) :
    (net_sector_summary rows).Nodup := by
  unfold net_sector_summary net_sector_summary_raw
  rw [List.map_map]
  exact (pairKeys_nodup rows).map fun k k' h => congrArg Prod.fst h

/-- Stability of the `sort_values` model: equal net amounts keep the
summary's (ascending sector key) relative order. -/
theorem sorted_category_tie_stable (rows : List Row) (t : Cell) :
    (sorted_category (net_sector_summary rows) t).Pairwise
      fun a b => a.2 = b.2 → cellKey a.1.2 ≤ cellKey b.1.2 := by
  have hasc := summary_filter_sorted rows t
  have hnd : (category_rows (net_sector_summary rows) t).Nodup :=
    (net_sector_summary_nodup rows).filter _
  have hscnd : (sorted_category (net_sector_summary rows) t).Nodup :=
    (List.mergeSort_perm _ _).nodup_iff.mpr hnd
  rw [List.pairwise_iff_forall_sublist]
  intro a b hsub hv
  by_contra hnle
  have hlt : cellKey b.1.2 < cellKey a.1.2 := not_le.mp hnle
  have hb : b ∈ category_rows (net_sector_summary rows) t :=
    List.mem_mergeSort.mp (hsub.subset (by simp))
  have ha : a ∈ category_rows (net_sector_summary rows) t :=
    List.mem_mergeSort.mp (hsub.subset (by simp))
  have h1 : [b, a].Sublist (category_rows (net_sector_summary rows) t) :=
    pair_sublist_of_pairwise (fun u v h h' => lt_asymm h h') _ hasc b a hb ha hlt
  have hba : netDescLe b a := by
    simp only [netDescLe, decide_eq_true_eq]
    exact le_of_eq hv
  have h2 : [b, a].Sublist (sorted_category (net_sector_summary rows) t) :=
    List.pair_sublist_mergeSort netDescLe_trans netDescLe_total hba h1
  have heq : a = b := sublist_pair_antisymm _ hscnd a b hsub h2
  rw [heq] at hlt
  exact lt_irrefl _ hlt

/-- C9: on identical input the pipeline's iteration orders coincide across
runs; per category the summary's sectors are strictly ascending in the key
order (lexicographic by sector label when the labels are strings), and
`get_top_bottom_sectors` resolves equal net amounts by that same fixed
sector order (sort stability), hence identically across repeated runs. -/
theorem claim_C9 (rows rows' : List Row) (t : Cell) (n : Nat) (h : rows' = rows) :
    (net_sector_summary rows' = net_sector_summary rows ∧
      get_top_bottom_sectors (net_sector_summary rows') t n
        = get_top_bottom_sectors (net_sector_summary rows) t n) ∧
    ((category_rows (net_sector_summary rows) t).map fun e => e.1.2).Pairwise
      (fun a b => cellKey a < cellKey b ∧
        ∀ x y, a = Cell.str x → b = Cell.str y → x < y) ∧
    (sorted_category (net_sector_summary rows) t).Pairwise
      (fun a b => a.2 = b.2 → cellKey a.1.2 ≤ cellKey b.1.2) := by
  subst h
  refine ⟨⟨rfl, rfl⟩, ?_, sorted_category_tie_stable rows' t⟩
  rw [List.pairwise_map]
  refine (summary_filter_sorted rows' t).imp fun hlt => ⟨hlt, ?_⟩
  intro x y hx hy
  rw [hx, hy] at hlt
  exact cellKey_str_lt_iff.mp hlt

theorem claim_C9_witness :
    (net_sector_summary
          [⟨1, Cell.str "BANK", Cell.str "x", Cell.str "y", Cell.str "RETAIL",
            Cell.num 1, Cell.num 1, Cell.num 2000000, Cell.num 5000000⟩]
        = net_sector_summary
          [⟨1, Cell.str "BANK", Cell.str "x", Cell.str "y", Cell.str "RETAIL",
            Cell.num 1, Cell.num 1, Cell.num 2000000, Cell.num 5000000⟩] ∧
      get_top_bottom_sectors
          (net_sector_summary
            [⟨1, Cell.str "BANK", Cell.str "x", Cell.str "y", Cell.str "RETAIL",
              Cell.num 1, Cell.num 1, Cell.num 2000000, Cell.num 5000000⟩])
          (Cell.str "RETAIL") 3
        = get_top_bottom_sectors
          (net_sector_summary
            [⟨1, Cell.str "BANK", Cell.str "x", Cell.str "y", Cell.str "RETAIL",
              Cell.num 1, Cell.num 1, Cell.num 2000000, Cell.num 5000000⟩])
          (Cell.str "RETAIL") 3) ∧
    ((category_rows
        (net_sector_summary
          [⟨1, Cell.str "BANK", Cell.str "x", Cell.str "y", Cell.str "RETAIL",
            Cell.num 1, Cell.num 1, Cell.num 2000000, Cell.num 5000000⟩])
        (Cell.str "RETAIL")).map fun e => e.1.2).Pairwise
      (fun a b => cellKey a < cellKey b ∧
        ∀ x y, a = Cell.str x → b = Cell.str y → x < y) ∧
    (sorted_category
        (net_sector_summary
          [⟨1, Cell.str "BANK", Cell.str "x", Cell.str "y", Cell.str "RETAIL",
            Cell.num 1, Cell.num 1, Cell.num 2000000, Cell.num 5000000⟩])
        (Cell.str "RETAIL")).Pairwise
      (fun a b => a.2 = b.2 → cellKey a.1.2 ≤ cellKey b.1.2) :=
  claim_C9
    [⟨1, Cell.str "BANK", Cell.str "x", Cell.str "y", Cell.str "RETAIL",
      Cell.num 1, Cell.num 1, Cell.num 2000000, Cell.num 5000000⟩]
    [⟨1, Cell.str "BANK", Cell.str "x", Cell.str "y", Cell.str "RETAIL",
      Cell.num 1, Cell.num 1, Cell.num 2000000, Cell.num 5000000⟩]
    (Cell.str "RETAIL") 3 rfl

/-- C7: when the category filter drops every row, `_clean_data` returns the
empty table rather than failing, and `_process_data` on the empty canonical
table succeeds with all five derived views empty. -/
theorem claim_C7 (raw : List Row) (s : DashState)
    (hdrop : ∀ r ∈ raw, (cleanRow r).invType ∉ valid_investors)
    (hs : s.data = clean_data raw) :
    clean_data raw = [] ∧
    (process_data s).2 = true ∧
    (process_data s).1.net_sector_summary = some [] ∧
    (process_data s).1.total_net_by_type = some [] ∧
    (process_data s).1.volume_total_by_type = some [] ∧
    (process_data s).1.daily_evolution = some [] ∧
    (process_data s).1.evol_sector = some [] := by
  have hempty : clean_data raw = [] := by
    rw [clean_data_eq]
    apply List.filter_eq_nil_iff.mpr
    intro r hr
    rcases List.mem_map.mp hr with ⟨r0, hr0, hE⟩
    subst hE
    simpa using hdrop r0 hr0
  have hdata : s.data = [] := hs.trans hempty
  refine ⟨hempty, ?_, ?_, ?_, ?_, ?_, ?_⟩ <;>
    simp [process_data, hdata, netGroupsOk, colNumeric, net_sector_summary_obj,
      scale_net_values, net_sector_summary, net_sector_summary_raw,
      total_net_by_type, volume_total_by_type, daily_evolution, evol_sector,
      pairKeys, catKeys, dateKeys]

theorem claim_C7_witness :
    clean_data
        [⟨1, Cell.str "BANK", Cell.str "x", Cell.str "y", Cell.str "UNKNOWN_DESK",
          Cell.num 1, Cell.num 1, Cell.num 7, Cell.num 7⟩] = [] ∧
    (process_data ⟨[], none, none, none, none, none⟩).2 = true ∧
    (process_data ⟨[], none, none, none, none, none⟩).1.net_sector_summary = some [] ∧
    (process_data ⟨[], none, none, none, none, none⟩).1.total_net_by_type = some [] ∧
    (process_data ⟨[], none, none, none, none, none⟩).1.volume_total_by_type = some [] ∧
    (process_data ⟨[], none, none, none, none, none⟩).1.daily_evolution = some [] ∧
    (process_data ⟨[], none, none, none, none, none⟩).1.evol_sector = some [] :=
  claim_C7 _ _ (by decide) (by decide)
